import Mathlib

/-!
Verification of the real-time multimodal emotion detection system.

Shallow embedding of:
- the heuristic voice classifier (`voice_detector.py`, `_analyze_audio_realtime`
  and its helpers), with the irrational-valued descriptors (spectral rolloff,
  pitch variation, RMS) and the random jitter passed as explicit parameters;
- the fusion engine (`emotion_fusion.py`, `fuse_emotions`);
- the ingest windowing step of the audio capture consumer loop
  (`audio_capture.py`, `start_capture`);
- the speech trigger controller (`main.py`, `continuous_speak_emotion` and
  `execute_emotion_speaking`) together with the dispatch entry point
  (`test_to_speech.py`, `speak_emotion_now`).
Machine floats are modelled as exact rationals.
-/

/-- The fixed 7-emotion label set, in the order of `VoiceDetector.emotions`. -/
inductive Emotion where
  | angry
  | happy
  | sad
  | neutral
  | fear
  | surprise
  | disgust
deriving DecidableEq, Repr

/-- The list `['angry', 'happy', 'sad', 'neutral', 'fear', 'surprise', 'disgust']`. -/
def emotionList : List Emotion :=
  [.angry, .happy, .sad, .neutral, .fear, .surprise, .disgust]

/-- Emotion scores, as the dict `emotion_scores` of `voice_detector.py`. -/
abbrev Scores := Emotion → ℚ

/-- Fusion weights of `config.py`: `FACE_WEIGHT = 0.7`. -/
def faceWeight : ℚ := 7/10

/-- Fusion weights of `config.py`: `VOICE_WEIGHT = 0.3`. -/
def voiceWeight : ℚ := 3/10

/-!
## Heuristic voice classifier (`voice_detector.py`)
-/

/-- Base emotion probabilities of `_calculate_realtime_emotions`. -/
def baseScores : Scores
  | .neutral => 15/100
  | .happy => 14/100
  | .sad => 13/100
  | .angry => 12/100
  | .surprise => 11/100
  | .fear => 10/100
  | .disgust => 9/100

/-- VOLUME-based emotion detection band of `_calculate_realtime_emotions`. -/
def volumeBand (volume : ℚ) (sc : Scores) : Scores := fun e =>
  if volume > 3/10 then
    sc e + (match e with | .angry => 25/100 | .surprise => 20/100 | .happy => 15/100 | _ => 0)
  else if volume > 15/100 then
    sc e + (match e with | .happy => 20/100 | .neutral => 15/100 | _ => 0)
  else
    sc e + (match e with | .sad => 25/100 | .fear => 15/100 | .neutral => 10/100 | _ => 0)

/-- ENERGY-based detection band of `_calculate_realtime_emotions`. -/
def energyBand (energy : ℚ) (sc : Scores) : Scores := fun e =>
  if energy > 1/50 then
    sc e + (match e with | .angry => 20/100 | .happy => 18/100 | .surprise => 12/100 | _ => 0)
  else if energy < 1/200 then
    sc e + (match e with | .sad => 22/100 | .fear => 15/100 | _ => 0)
  else sc e

/-- ZERO CROSSINGS band of `_calculate_realtime_emotions`. -/
def zcrBand (zeroCrossings : ℚ) (sc : Scores) : Scores := fun e =>
  if zeroCrossings > 15/100 then
    sc e + (match e with | .angry => 25/100 | .disgust => 15/100 | _ => 0)
  else if zeroCrossings < 5/100 then
    sc e + (match e with | .happy => 20/100 | .neutral => 10/100 | _ => 0)
  else sc e

/-- SPECTRAL characteristics band of `_calculate_realtime_emotions`. -/
def rolloffBand (spectralRolloff : ℚ) (sc : Scores) : Scores := fun e =>
  if spectralRolloff > 6/10 then
    sc e + (match e with | .happy => 22/100 | .surprise => 18/100 | _ => 0)
  else if spectralRolloff < 3/10 then
    sc e + (match e with | .sad => 20/100 | .fear => 15/100 | _ => 0)
  else sc e

/-- PITCH VARIATION band of `_calculate_realtime_emotions`. -/
def pitchBand (pitchVariation : ℚ) (sc : Scores) : Scores := fun e =>
  if pitchVariation > 7/10 then
    sc e + (match e with | .surprise => 25/100 | .fear => 18/100 | .happy => 12/100 | _ => 0)
  else if pitchVariation < 3/10 then
    sc e + (match e with | .sad => 20/100 | .neutral => 15/100 | _ => 0)
  else sc e

/-- The additive rule table `_calculate_realtime_emotions`: base priors plus the
five descriptor bands, applied in the source's fixed order. -/
def calcRealtimeEmotions (volume energy zeroCrossings spectralRolloff pitchVariation : ℚ) :
    Scores :=
  pitchBand pitchVariation
    (rolloffBand spectralRolloff
      (zcrBand zeroCrossings
        (energyBand energy
          (volumeBand volume baseScores))))

/-- Wall-clock phase bias of `_add_realtime_variety`:
`time_cycle = (current_time % 15) / 15`, five equal phases. -/
def phaseBand (now : ℚ) (sc : Scores) : Scores := fun e =>
  let timeCycle := (now - 15 * ((now / 15 : ℚ).floor : ℚ)) / 15
  if timeCycle < 1/5 then
    sc e + (match e with | .happy => 15/100 | .surprise => 10/100 | _ => 0)
  else if timeCycle < 2/5 then
    sc e + (match e with | .neutral => 12/100 | _ => 0)
  else if timeCycle < 3/5 then
    sc e + (match e with | .sad => 15/100 | .fear => 8/100 | _ => 0)
  else if timeCycle < 4/5 then
    sc e + (match e with | .angry => 18/100 | .disgust => 10/100 | _ => 0)
  else
    sc e + (match e with | .surprise => 20/100 | .fear => 10/100 | _ => 0)

/-- Anti-repetition step of `_add_realtime_variety`: if the history has more than
2 entries and its most recent label occurs at least twice anywhere in it, that
label's score is multiplied by 0.7 and every other label's score by 1.1. -/
def repetitionAdjust (sc : Scores) (hist : List Emotion) : Scores :=
  if 2 < hist.length then
    match hist.getLast? with
    | some last =>
        if 2 ≤ hist.count last then
          fun e => if e = last then sc e * (7/10) else sc e * (11/10)
        else sc
    | none => sc
  else sc

/-- Jitter-and-floor step of `_add_realtime_variety`: add the random draw for
each emotion (injected here as the explicit function `jit`), then clamp to the
0.05 floor. -/
def flooredScores (sc : Scores) (jit : Emotion → ℚ) : Scores := fun e =>
  max (1/20) (sc e + jit e)

/-- Sum of all seven scores, as `sum(emotion_scores.values())`. -/
def sumScores (sc : Scores) : ℚ := (emotionList.map sc).sum

/-- Normalization step of `_add_realtime_variety`: divide each score by the sum. -/
def normalizeScores (sc : Scores) : Scores := fun e => sc e / sumScores sc

/-- The full `_add_realtime_variety`: phase bias, anti-repetition, jitter and
floor, then normalization, in the source's order. -/
def addRealtimeVariety (sc : Scores) (now : ℚ) (hist : List Emotion)
    (jit : Emotion → ℚ) : Scores :=
  normalizeScores (flooredScores (repetitionAdjust (phaseBand now sc) hist) jit)

/-- Peak absolute amplitude `np.max(np.abs(audio_data))` (0 on an empty window,
where the source would raise and be caught, also yielding no estimate). -/
def peakAmp (audio : List ℚ) : ℚ := (audio.map (fun x => |x|)).foldr max 0

/-- Mean squared amplitude `np.mean(audio_data ** 2)`. -/
def meanSq (audio : List ℚ) : ℚ := (audio.map (fun x => x ^ 2)).sum / audio.length

/-- The sign function `np.sign`. -/
def sgn (x : ℚ) : ℚ := if x > 0 then 1 else if x < 0 then -1 else 0

/-- Zero-crossing rate `np.sum(np.abs(np.diff(np.sign(audio_data)))) / len(audio_data)`. -/
def zcrOf (audio : List ℚ) : ℚ :=
  ((audio.zip audio.tail).map (fun p => |sgn p.2 - sgn p.1|)).sum / audio.length

/-- The normalized score distribution the classifier derives from a window:
rule table over the computed descriptors (spectral rolloff, pitch variation and
the jitter draws are parameters, being irrational- or randomness-valued in the
source), then the variety step. -/
def finalScores (audio : List ℚ) (now spectralRolloff pitchVariation : ℚ)
    (hist : List Emotion) (jit : Emotion → ℚ) : Scores :=
  addRealtimeVariety
    (calcRealtimeEmotions (peakAmp audio) (meanSq audio) (zcrOf audio)
      spectralRolloff pitchVariation)
    now hist jit

/-- Argmax of `max(emotion_scores, key=emotion_scores.get)`: first key of the
dict insertion order (neutral, happy, sad, angry, surprise, fear, disgust)
attaining the maximum score. -/
def bestEmotion (sc : Scores) : Emotion :=
  [Emotion.happy, .sad, .angry, .surprise, .fear, .disgust].foldl
    (fun b e => if sc b < sc e then e else b) Emotion.neutral

/-- The estimate dict returned by `_analyze_audio_realtime` (the
`all_predictions` feature snapshot is the `finalScores` distribution and the
constant model name; both are omitted from the record, no claim reads them). -/
structure VoiceEstimate where
  emotion : Emotion
  confidence : ℚ
deriving DecidableEq, Repr

/-- The classifier `_analyze_audio_realtime`, returning the optional estimate
and the updated `emotion_sequence` history. `rms` is `sqrt(energy)`, passed as
a parameter. -/
def analyzeAudioRealtime (audio : List ℚ) (now spectralRolloff pitchVariation rms : ℚ)
    (hist : List Emotion) (jit : Emotion → ℚ) : Option VoiceEstimate × List Emotion :=
  let volume := peakAmp audio
  if volume < 1/200 then (none, hist)
  else
    let sc := finalScores audio now spectralRolloff pitchVariation hist jit
    let best := bestEmotion sc
    let baseConfidence := sc best
    let confidenceBoost := min (3/10) (volume * 2 + rms * (3/2))
    let finalConfidence := min (92/100) (baseConfidence + confidenceBoost)
    let hist1 := hist ++ [best]
    let hist2 := if hist1.length > 10 then hist1.tail else hist1
    (some ⟨best, finalConfidence⟩, hist2)

/-!
## Fusion engine (`emotion_fusion.py`)
-/

/-- A label/confidence estimate dict, as read by `fuse_emotions` and
`continuous_speak_emotion` (keys `emotion` and `confidence`). -/
structure Estimate where
  emotion : Emotion
  confidence : ℚ
deriving DecidableEq, Repr

/-- Provenance tag (`source` key) of a fusion result. -/
inductive Source where
  | voiceOnly
  | faceOnly
  | agreement
  | faceDominant
  | voiceDominant
deriving DecidableEq, Repr

/-- The dict returned by `fuse_emotions`. -/
structure FusionResult where
  emotion : Emotion
  confidence : ℚ
  source : Source
deriving DecidableEq, Repr

/-- The fusion rule `EmotionFusion.fuse_emotions`, with the configured weights
0.7/0.3. -/
def fuseEmotions (faceResult voiceResult : Option Estimate) : Option FusionResult :=
  match faceResult, voiceResult with
  | none, none => none
  | none, some v => some ⟨v.emotion, v.confidence * (8/10), .voiceOnly⟩
  | some f, none => some ⟨f.emotion, f.confidence * (8/10), .faceOnly⟩
  | some f, some v =>
      if f.emotion = v.emotion then
        some ⟨f.emotion,
          min 1 (f.confidence * faceWeight + v.confidence * voiceWeight + 2/10),
          .agreement⟩
      else
        let faceWeighted := f.confidence * faceWeight
        let voiceWeighted := v.confidence * voiceWeight
        if faceWeighted > voiceWeighted then
          some ⟨f.emotion, faceWeighted, .faceDominant⟩
        else
          some ⟨v.emotion, voiceWeighted, .voiceDominant⟩

/-!
## Ingest windowing (`audio_capture.py`, consumer loop of `start_capture`)
-/

/-- Sample rate: `self.sample_rate = 16000`. -/
def sampleRate : ℕ := 16000

/-- Window seconds: `self.buffer_duration = 3`. -/
def bufferDuration : ℕ := 3

/-- Window size: `target_samples = self.sample_rate * self.buffer_duration`. -/
def targetSamples : ℕ := sampleRate * bufferDuration

/-- Python's `l[-n:]`: the last `n` elements (the whole list when `n` exceeds
its length). -/
def takeLast (n : ℕ) (l : List ℚ) : List ℚ := l.drop (l.length - n)

/-- One iteration of the consumer loop: extend the accumulator with the drained
chunk; once it holds at least `target_samples` samples, emit the most recent
`target_samples` as the analysis window and truncate the accumulator to the
most recent `sample_rate` samples. -/
def consumeChunk (buffer chunk : List ℚ) : List ℚ × Option (List ℚ) :=
  let b := buffer ++ chunk
  if targetSamples ≤ b.length then
    (takeLast sampleRate b, some (takeLast targetSamples b))
  else (b, none)

/-!
## Speech trigger controller (`main.py`) and dispatch entry
(`test_to_speech.py`)
-/

/-- Recorded trigger reason (`speak_reason`); `none` models the initial `""`. -/
inductive Reason where
  | emotionChanged
  | faceChanged
  | voiceChanged
  | timeBased
  | highConfidence
deriving DecidableEq, Repr

/-- The scalar state of `MultimodalEmotionDetector` read and written by
`continuous_speak_emotion` / `execute_emotion_speaking`, together with the
`TextToSpeech` fields they drive (`enabled`, `emotion_count`,
`last_speak_time`; the TTS engine is taken as present). -/
structure ControllerState where
  currentEmotion : Option Emotion
  lastSpokenTime : ℚ
  lastFaceEmotion : Option Emotion
  lastVoiceEmotion : Option Emotion
  emotionSpeakCount : ℕ
  ttsEnabled : Bool
  ttsEmotionCount : ℕ
  ttsLastSpeakTime : ℚ
deriving DecidableEq, Repr

/-- Spelled-out emotion label, as interpolated into the messages. -/
def emotionName : Emotion → String
  | .angry => "angry"
  | .happy => "happy"
  | .sad => "sad"
  | .neutral => "neutral"
  | .fear => "fear"
  | .surprise => "surprise"
  | .disgust => "disgust"

/-- The fixed 8-entry message rotation of `execute_emotion_speaking`. -/
def mainMessages (e : Emotion) : List String :=
  [emotionName e,
   emotionName e ++ " detected",
   "Emotion " ++ emotionName e,
   emotionName e ++ " emotion",
   "Current emotion " ++ emotionName e,
   "Feeling " ++ emotionName e,
   "I see " ++ emotionName e,
   emotionName e ++ " expression"]

/-- The fixed 4-entry message rotation of `TextToSpeech.speak_emotion_now`. -/
def ttsMessages (e : Emotion) : List String :=
  [emotionName e,
   emotionName e ++ " detected",
   "Emotion " ++ emotionName e,
   emotionName e ++ " emotion"]

/-- Dispatch entry `TextToSpeech.speak_emotion_now`: bump the TTS counter, build the rotated
message and queue it (the queued text is returned; `none` when disabled). -/
def speakEmotionNow (s : ControllerState) (e : Emotion) (now : ℚ) :
    ControllerState × Option String :=
  if s.ttsEnabled = false then (s, none)
  else
    let cnt := s.ttsEmotionCount + 1
    let message := (ttsMessages e).getD (cnt % 4) ""
    ({ s with ttsEmotionCount := cnt, ttsLastSpeakTime := now }, some message)

/-- The record of one speaking action: the log message built by
`execute_emotion_speaking`, the text actually queued for rendering by
`speak_emotion_now`, and the recorded reason. -/
structure SpokeRecord where
  message : String
  queuedText : Option String
  reason : Option Reason
deriving DecidableEq, Repr

/-- Speaking step `MultimodalEmotionDetector.execute_emotion_speaking`: bump `emotion_speak_count`,
build the (logged) message — reason-specific phrasing or the 8-entry rotation —
submit the emotion to `speak_emotion_now`, and update `current_emotion` and
`last_spoken_time`. -/
def executeEmotionSpeaking (s : ControllerState) (f : FusionResult)
    (reason : Option Reason) (now : ℚ) : ControllerState × SpokeRecord :=
  let cnt := s.emotionSpeakCount + 1
  let message :=
    match reason with
    | some .faceChanged => "Face shows " ++ emotionName f.emotion
    | some .voiceChanged => "Voice shows " ++ emotionName f.emotion
    | some .highConfidence => "Strong " ++ emotionName f.emotion
    | _ => (mainMessages f.emotion).getD (cnt % 8) ""
  let s1 := { s with emotionSpeakCount := cnt }
  let queued := speakEmotionNow s1 f.emotion now
  ({ queued.1 with currentEmotion := some f.emotion, lastSpokenTime := now },
   { message := message, queuedText := queued.2, reason := reason })

/-- Trigger evaluation `MultimodalEmotionDetector.continuous_speak_emotion`: the five triggers
evaluated in order (a later true trigger overwriting the recorded reason),
the in-place `last_face_emotion` / `last_voice_emotion` updates, and the
conditional call to `execute_emotion_speaking`. -/
def continuousSpeakEmotion (s : ControllerState) (finalEmotion : Option FusionResult)
    (faceResult : Option Estimate) (voiceResult : Option Estimate) (now : ℚ) :
    ControllerState × Option SpokeRecord :=
  if s.ttsEnabled = false then (s, none)
  else
    let t1 : Bool × Option Reason :=
      match finalEmotion with
      | some f =>
          if s.currentEmotion ≠ some f.emotion ∧ f.confidence > 2/5 then
            (true, some .emotionChanged)
          else (false, none)
      | none => (false, none)
    let t2 : (Bool × Option Reason) × Option Emotion :=
      match faceResult with
      | some fr =>
          if s.lastFaceEmotion ≠ some fr.emotion ∧ fr.confidence > 7/10 then
            ((true, some .faceChanged), some fr.emotion)
          else (t1, s.lastFaceEmotion)
      | none => (t1, s.lastFaceEmotion)
    let t3 : (Bool × Option Reason) × Option Emotion :=
      match voiceResult with
      | some vr =>
          if s.lastVoiceEmotion ≠ some vr.emotion ∧ vr.confidence > 1/2 then
            ((true, some .voiceChanged), some vr.emotion)
          else (t2.1, s.lastVoiceEmotion)
      | none => (t2.1, s.lastVoiceEmotion)
    let timePassed := now - s.lastSpokenTime > 2
    let t4 : Bool × Option Reason :=
      match finalEmotion with
      | some f =>
          if timePassed ∧ f.confidence > 2/5 then (true, some .timeBased) else t3.1
      | none => t3.1
    let t5 : Bool × Option Reason :=
      match finalEmotion with
      | some f =>
          if f.confidence > 17/20 ∧ now - s.lastSpokenTime > 1/2 then
            (true, some .highConfidence)
          else t4
      | none => t4
    let s1 := { s with lastFaceEmotion := t2.2, lastVoiceEmotion := t3.2 }
    match finalEmotion with
    | some f =>
        if t5.1 then
          let r := executeEmotionSpeaking s1 f t5.2 now
          (r.1, some r.2)
        else (s1, none)
    | none => (s1, none)

/-!
## Helper lemmas
-/

lemma mem_emotionList (e : Emotion) : e ∈ emotionList := by
  cases e <;> simp [emotionList]

lemma foldr_max_nonneg (l : List ℚ) : 0 ≤ l.foldr max 0 := by
  induction l with
  | nil => exact le_refl 0
  | cons a t ih => exact le_trans ih (le_max_right a _)

lemma peakAmp_nonneg (audio : List ℚ) : 0 ≤ peakAmp audio :=
  foldr_max_nonneg _

lemma flooredScores_ge (sc : Scores) (jit : Emotion → ℚ) (e : Emotion) :
    1/20 ≤ flooredScores sc jit e :=
  le_max_left _ _

lemma sumScores_pos (sc : Scores) (h : ∀ e, 1/20 ≤ sc e) : 0 < sumScores sc := by
  have h1 := h .angry
  have h2 := h .happy
  have h3 := h .sad
  have h4 := h .neutral
  have h5 := h .fear
  have h6 := h .surprise
  have h7 := h .disgust
  simp only [sumScores, emotionList, List.map_cons, List.map_nil, List.sum_cons,
    List.sum_nil, add_zero]
  linarith

lemma normalize_nonneg (sc : Scores) (h : ∀ e, 1/20 ≤ sc e) (e : Emotion) :
    0 ≤ normalizeScores sc e :=
  div_nonneg (le_trans (by norm_num) (h e)) (le_of_lt (sumScores_pos sc h))

lemma foldl_best_spec (sc : Scores) (l : List Emotion) (b : Emotion) :
    sc b ≤ sc (l.foldl (fun b e => if sc b < sc e then e else b) b) ∧
    ∀ e ∈ l, sc e ≤ sc (l.foldl (fun b e => if sc b < sc e then e else b) b) := by
  induction l generalizing b with
  | nil => exact ⟨le_refl _, by simp⟩
  | cons a t ih =>
      have hstep : sc b ≤ sc (if sc b < sc a then a else b) ∧
          sc a ≤ sc (if sc b < sc a then a else b) := by
        by_cases hc : sc b < sc a
        · rw [if_pos hc]; exact ⟨le_of_lt hc, le_refl _⟩
        · rw [if_neg hc]; exact ⟨le_refl _, le_of_not_lt hc⟩
      simp only [List.foldl_cons]
      refine ⟨le_trans hstep.1 (ih _).1, ?_⟩
      intro e he
      rcases List.mem_cons.mp he with rfl | hm
      · exact le_trans hstep.2 (ih _).1
      · exact (ih _).2 e hm

lemma bestEmotion_max (sc : Scores) (e : Emotion) : sc e ≤ sc (bestEmotion sc) := by
  have h := foldl_best_spec sc [Emotion.happy, .sad, .angry, .surprise, .fear, .disgust]
    Emotion.neutral
  cases e <;> first
    | exact h.1
    | exact h.2 _ (by simp)

lemma length_takeLast (n : ℕ) (l : List ℚ) (h : n ≤ l.length) :
    (takeLast n l).length = n := by
  simp only [takeLast, List.length_drop]
  omega

lemma takeLast_takeLast (n m : ℕ) (l : List ℚ) (h : n ≤ m) :
    takeLast n (takeLast m l) = takeLast n l := by
  simp only [takeLast, List.drop_drop, List.length_drop]
  congr 1
  omega

lemma executeEmotionSpeaking_spec (s : ControllerState) (hen : s.ttsEnabled = true)
    (f : FusionResult) (reason : Option Reason) (now : ℚ) :
    executeEmotionSpeaking s f reason now =
      ({ s with emotionSpeakCount := s.emotionSpeakCount + 1,
                ttsEmotionCount := s.ttsEmotionCount + 1,
                ttsLastSpeakTime := now,
                currentEmotion := some f.emotion,
                lastSpokenTime := now },
       { message :=
           match reason with
           | some .faceChanged => "Face shows " ++ emotionName f.emotion
           | some .voiceChanged => "Voice shows " ++ emotionName f.emotion
           | some .highConfidence => "Strong " ++ emotionName f.emotion
           | _ => (mainMessages f.emotion).getD ((s.emotionSpeakCount + 1) % 8) ""
         queuedText := some ((ttsMessages f.emotion).getD ((s.ttsEmotionCount + 1) % 4) "")
         reason := reason }) := by
  simp [executeEmotionSpeaking, speakEmotionNow, hen]

/-- Anatomy of a speaking cycle: whenever `continuous_speak_emotion` submits a
speech action, TTS was enabled, a fused result existed, and the state/record
updates are those of `execute_emotion_speaking` feeding `speak_emotion_now`;
moreover the reason can be `high_confidence` only when the fused confidence
cleared the 0.85 bar. -/
lemma continuousSpeak_some (s : ControllerState) (fe : Option FusionResult)
    (fr vr : Option Estimate) (now : ℚ) (s' : ControllerState) (act : SpokeRecord)
    (h : continuousSpeakEmotion s fe fr vr now = (s', some act)) :
    s.ttsEnabled = true ∧
    ∃ f, fe = some f ∧
      s'.emotionSpeakCount = s.emotionSpeakCount + 1 ∧
      s'.currentEmotion = some f.emotion ∧
      s'.lastSpokenTime = now ∧
      s'.ttsEmotionCount = s.ttsEmotionCount + 1 ∧
      act.queuedText = some ((ttsMessages f.emotion).getD ((s.ttsEmotionCount + 1) % 4) "") ∧
      (act.message =
        match act.reason with
        | some .faceChanged => "Face shows " ++ emotionName f.emotion
        | some .voiceChanged => "Voice shows " ++ emotionName f.emotion
        | some .highConfidence => "Strong " ++ emotionName f.emotion
        | _ => (mainMessages f.emotion).getD ((s.emotionSpeakCount + 1) % 8) "") ∧
      (act.reason = some Reason.highConfidence →
        f.confidence > 17/20 ∧ now - s.lastSpokenTime > 1/2) := by
  by_cases hen : s.ttsEnabled = false
  · exfalso
    simp [continuousSpeakEmotion, hen] at h
  · have hen' : s.ttsEnabled = true := by
      cases hb : s.ttsEnabled
      · exact absurd hb hen
      · rfl
    refine ⟨hen', ?_⟩
    rcases fe with _ | f
    · exfalso
      simp only [continuousSpeakEmotion, hen', Bool.true_eq_false, if_false] at h
      simp at h
    · refine ⟨f, rfl, ?_⟩
      rcases fr with _ | fr0 <;> rcases vr with _ | vr0 <;>
        simp only [continuousSpeakEmotion, hen', Bool.true_eq_false, if_false] at h <;>
        split_ifs at h <;>
        first
          | (simp at h; done)
          | (simp only [executeEmotionSpeaking, speakEmotionNow, Bool.true_eq_false,
               if_false, Prod.mk.injEq, Option.some.injEq] at h
             obtain ⟨h1, h2⟩ := h
             subst h1
             subst h2
             refine ⟨rfl, rfl, rfl, rfl, rfl, rfl, ?_⟩
             intro hr
             first
               | assumption
               | simp at hr)

/-!
## Claim theorems
-/

/-- C4: with both estimates present and differing labels, `fuse_emotions`
returns the label whose weighted confidence (face·0.7 vs voice·0.3) is larger,
with that weighted value as confidence and a dominant provenance; an exact tie
goes to the voice label. In particular face={sad,0.5}, voice={angry,0.9}
yields sad with provenance face_dominant. -/
theorem spec_c4_fusion_disagreement (f v : Estimate) (r : FusionResult)
    (hne : f.emotion ≠ v.emotion)
    (h : fuseEmotions (some f) (some v) = some r) :
    (f.confidence * faceWeight > v.confidence * voiceWeight →
      r = ⟨f.emotion, f.confidence * faceWeight, .faceDominant⟩) ∧
    (f.confidence * faceWeight ≤ v.confidence * voiceWeight →
      r = ⟨v.emotion, v.confidence * voiceWeight, .voiceDominant⟩) ∧
    fuseEmotions (some ⟨.sad, 5/10⟩) (some ⟨.angry, 9/10⟩) =
      some ⟨.sad, 35/100, .faceDominant⟩ := by
  refine ⟨?_, ?_, ?_⟩
  · intro hgt
    simp only [fuseEmotions, if_neg hne, if_pos hgt, Option.some.injEq] at h
    exact h.symm
  · intro hle
    have hngt : ¬ f.confidence * faceWeight > v.confidence * voiceWeight :=
      not_lt.mpr hle
    simp only [fuseEmotions, if_neg hne, if_neg hngt, Option.some.injEq] at h
    exact h.symm
  · have hne2 : Emotion.sad ≠ Emotion.angry := by decide
    norm_num [fuseEmotions, hne2, faceWeight, voiceWeight]

/-- Witness for C4, at the claim's own concrete pair. -/
theorem spec_c4_witness :
    ((⟨Emotion.sad, 5/10⟩ : Estimate).emotion ≠ (⟨Emotion.angry, 9/10⟩ : Estimate).emotion) ∧
    fuseEmotions (some ⟨Emotion.sad, 5/10⟩) (some ⟨Emotion.angry, 9/10⟩) =
      some ⟨Emotion.sad, 35/100, Source.faceDominant⟩ := by
  have hne : (⟨Emotion.sad, 5/10⟩ : Estimate).emotion ≠
      (⟨Emotion.angry, 9/10⟩ : Estimate).emotion := by decide
  have h : fuseEmotions (some ⟨Emotion.sad, 5/10⟩) (some ⟨Emotion.angry, 9/10⟩) =
      some ⟨Emotion.sad, 35/100, Source.faceDominant⟩ := by
    have hne2 : Emotion.sad ≠ Emotion.angry := by decide
    norm_num [fuseEmotions, hne2, faceWeight, voiceWeight]
  exact ⟨hne, (spec_c4_fusion_disagreement _ _ _ hne h).2.2⟩

/-- C5: with both estimates present and agreeing labels, `fuse_emotions`
returns that label with confidence min(1, face·0.7 + voice·0.3 + 0.2) and
provenance agreement; face={happy,0.9}, voice={happy,0.6} gives exactly 1. -/
theorem spec_c5_fusion_agreement (f v : Estimate) (r : FusionResult)
    (heq : f.emotion = v.emotion)
    (h : fuseEmotions (some f) (some v) = some r) :
    r = ⟨f.emotion,
          min 1 (f.confidence * faceWeight + v.confidence * voiceWeight + 2/10),
          .agreement⟩ ∧
    fuseEmotions (some ⟨.happy, 9/10⟩) (some ⟨.happy, 6/10⟩) =
      some ⟨.happy, 1, .agreement⟩ := by
  constructor
  · simp only [fuseEmotions, if_pos heq, Option.some.injEq] at h
    exact h.symm
  · norm_num [fuseEmotions, faceWeight, voiceWeight, min_def]

/-- Witness for C5, at the claim's own concrete pair. -/
theorem spec_c5_witness :
    ((⟨Emotion.happy, 9/10⟩ : Estimate).emotion = (⟨Emotion.happy, 6/10⟩ : Estimate).emotion) ∧
    fuseEmotions (some ⟨Emotion.happy, 9/10⟩) (some ⟨Emotion.happy, 6/10⟩) =
      some ⟨Emotion.happy, 1, Source.agreement⟩ := by
  have heq : (⟨Emotion.happy, 9/10⟩ : Estimate).emotion =
      (⟨Emotion.happy, 6/10⟩ : Estimate).emotion := rfl
  have h : fuseEmotions (some ⟨Emotion.happy, 9/10⟩) (some ⟨Emotion.happy, 6/10⟩) =
      some ⟨Emotion.happy, 1, Source.agreement⟩ := by
    norm_num [fuseEmotions, faceWeight, voiceWeight, min_def]
  exact ⟨heq, (spec_c5_fusion_agreement _ _ _ heq h).2⟩

/-- C6: a window whose peak absolute amplitude is below the 0.005 silence
threshold yields no estimate and leaves the label history unchanged — in
particular silence is never mapped to any label, neutral included. -/
theorem spec_c6_silence_gate (audio : List ℚ) (now spectralRolloff pitchVariation rms : ℚ)
    (hist : List Emotion) (jit : Emotion → ℚ)
    (h : peakAmp audio < 1/200) :
    analyzeAudioRealtime audio now spectralRolloff pitchVariation rms hist jit =
      (none, hist) := by
  simp only [analyzeAudioRealtime]
  rw [if_pos h]

/-- Witness for C6, on an all-zero window. -/
theorem spec_c6_witness :
    peakAmp [(0:ℚ)] < 1/200 ∧
    analyzeAudioRealtime [(0:ℚ)] 0 (1/2) (1/2) 0 [] (fun _ => 0) = (none, []) := by
  have h : peakAmp [(0:ℚ)] < 1/200 := by norm_num [peakAmp]
  exact ⟨h, spec_c6_silence_gate _ _ _ _ _ _ _ h⟩

/-- C7: once the accumulator holds at least `target_samples` samples, the
emitted window is exactly the most recent `target_samples` samples, the
accumulator is truncated to exactly `sample_rate` samples — the last
`sample_rate` samples of the emitted window, the 1-second overlap — and a
further poll without new data emits nothing. -/
theorem spec_c7_ingest_window (buffer chunk : List ℚ)
    (h : targetSamples ≤ (buffer ++ chunk).length) :
    consumeChunk buffer chunk =
      (takeLast sampleRate (buffer ++ chunk),
       some (takeLast targetSamples (buffer ++ chunk))) ∧
    (takeLast targetSamples (buffer ++ chunk)).length = targetSamples ∧
    (takeLast sampleRate (buffer ++ chunk)).length = sampleRate ∧
    takeLast sampleRate (buffer ++ chunk) =
      takeLast sampleRate (takeLast targetSamples (buffer ++ chunk)) ∧
    consumeChunk (takeLast sampleRate (buffer ++ chunk)) [] =
      (takeLast sampleRate (buffer ++ chunk), none) := by
  have hsr : sampleRate ≤ targetSamples := by decide
  have h1 : (takeLast targetSamples (buffer ++ chunk)).length = targetSamples :=
    length_takeLast _ _ h
  have h2 : (takeLast sampleRate (buffer ++ chunk)).length = sampleRate :=
    length_takeLast _ _ (le_trans hsr h)
  refine ⟨by simp only [consumeChunk]; rw [if_pos h], h1, h2,
    (takeLast_takeLast _ _ _ hsr).symm, ?_⟩
  have hlt : ¬ targetSamples ≤ (takeLast sampleRate (buffer ++ chunk) ++ []).length := by
    rw [List.append_nil, h2]
    decide
  simp only [consumeChunk]
  rw [if_neg hlt, List.append_nil]

/-- Witness for C7, on a 48000-sample accumulator. -/
theorem spec_c7_witness :
    targetSamples ≤ (List.replicate 48000 (0:ℚ) ++ []).length ∧
    consumeChunk (List.replicate 48000 (0:ℚ)) [] =
      (takeLast sampleRate (List.replicate 48000 (0:ℚ) ++ []),
       some (takeLast targetSamples (List.replicate 48000 (0:ℚ) ++ []))) := by
  have h : targetSamples ≤ (List.replicate 48000 (0:ℚ) ++ []).length := by
    rw [List.append_nil, List.length_replicate]
    decide
  exact ⟨h, (spec_c7_ingest_window _ _ h).1⟩

/-- C3 counterexample: the history [happy, sad, happy], whose last label
repeats elsewhere but not in the trailing positions, is nevertheless scaled
(the last label's score is multiplied by 0.7), contrary to the claim that such
histories are left unscaled. -/
theorem spec_c3_counterexample :
    repetitionAdjust (fun _ => 1) [Emotion.happy, Emotion.sad, Emotion.happy]
        Emotion.happy = 7/10 ∧
    ((7:ℚ)/10) ≠ 1 := by
  constructor
  · have hl : ([Emotion.happy, Emotion.sad, Emotion.happy]).getLast? =
        some Emotion.happy := rfl
    have hlen : 2 < ([Emotion.happy, Emotion.sad, Emotion.happy]).length := by decide
    have hc : 2 ≤ ([Emotion.happy, Emotion.sad, Emotion.happy]).count Emotion.happy := by
      decide
    simp [repetitionAdjust, hl, hlen, hc]
  · norm_num

/-- C3 (amended): the anti-repetition step scales if and only if the history
has more than 2 entries and its most recent label occurs at least twice
anywhere in it — then that label's score is multiplied by 0.7 and every other
label's by 1.1; otherwise the scores are left unscaled. -/
theorem spec_c3_anti_repetition (sc : Scores) (hist : List Emotion) (lastLabel : Emotion)
    (hl : hist.getLast? = some lastLabel) :
    (2 < hist.length ∧ 2 ≤ hist.count lastLabel →
      repetitionAdjust sc hist =
        fun e => if e = lastLabel then sc e * (7/10) else sc e * (11/10)) ∧
    (¬(2 < hist.length ∧ 2 ≤ hist.count lastLabel) →
      repetitionAdjust sc hist = sc) := by
  constructor
  · rintro ⟨h1, h2⟩
    simp [repetitionAdjust, h1, hl, h2]
  · intro hn
    unfold repetitionAdjust
    by_cases h1 : 2 < hist.length
    · rw [if_pos h1, hl]
      have h2 : ¬ 2 ≤ hist.count lastLabel := fun hc => hn ⟨h1, hc⟩
      simp [h2]
    · rw [if_neg h1]

/-- Witness for the amended C3, on the history [happy, sad, happy]. -/
theorem spec_c3_witness :
    ([Emotion.happy, Emotion.sad, Emotion.happy]).getLast? = some Emotion.happy ∧
    repetitionAdjust (fun _ => 10) [Emotion.happy, Emotion.sad, Emotion.happy] =
      fun e => if e = Emotion.happy then (10:ℚ) * (7/10) else 10 * (11/10) := by
  have hl : ([Emotion.happy, Emotion.sad, Emotion.happy]).getLast? =
      some Emotion.happy := rfl
  exact ⟨hl, (spec_c3_anti_repetition (fun _ => 10) _ _ hl).1 ⟨by decide, by decide⟩⟩

/-- C10: with speech output toggled off, a controller cycle returns
immediately with the state — lastSpokenLabel, lastSpokenTime, lastFaceLabel,
lastVoiceLabel, spokenCount — fully unchanged and no speech; whereas with it
on, the lastFaceLabel update does happen even on a cycle that produces no
speech. -/
theorem spec_c10_tts_disabled (s : ControllerState) (fused : Option FusionResult)
    (face voice : Option Estimate) (now : ℚ)
    (h : s.ttsEnabled = false) :
    continuousSpeakEmotion s fused face voice now = (s, none) ∧
    ((continuousSpeakEmotion ⟨none, 0, none, none, 0, true, 0, 0⟩ none
        (some ⟨Emotion.happy, 4/5⟩) none 0).2 = none ∧
     (continuousSpeakEmotion ⟨none, 0, none, none, 0, true, 0, 0⟩ none
        (some ⟨Emotion.happy, 4/5⟩) none 0).1.lastFaceEmotion = some Emotion.happy) := by
  refine ⟨by simp [continuousSpeakEmotion, h], ?_, ?_⟩
  · norm_num [continuousSpeakEmotion]
  · norm_num [continuousSpeakEmotion]
    decide

/-- C2 counterexample: at spokenCount = ttsCount = 3, a time-based speaking
cycle builds the log message "Current emotion happy" (8-entry rotation, index
4), but the text submitted for rendering is the dispatcher's own 4-entry
rotation entry "happy" — the built message is not what is vocalized. -/
theorem spec_c2_counterexample :
    ((continuousSpeakEmotion ⟨none, 0, none, none, 3, true, 3, 0⟩
        (some ⟨Emotion.happy, 1/2, Source.agreement⟩) none none 3).2.map
          (fun act => act.message) =
      some ("Current emotion " ++ emotionName Emotion.happy)) ∧
    ((continuousSpeakEmotion ⟨none, 0, none, none, 3, true, 3, 0⟩
        (some ⟨Emotion.happy, 1/2, Source.agreement⟩) none none 3).2.map
          (fun act => act.queuedText) =
      some (some (emotionName Emotion.happy))) ∧
    ("Current emotion " ++ emotionName Emotion.happy) ≠ emotionName Emotion.happy := by
  refine ⟨?_, ?_, by decide⟩ <;>
    norm_num [continuousSpeakEmotion, executeEmotionSpeaking, speakEmotionNow,
      mainMessages, ttsMessages, List.getD_cons_succ, List.getD_cons_zero]

/-- C2 (amended): whenever a trigger fires and a fused result exists, the
controller increments spokenCount, builds the log message (reason-specific
phrasing, otherwise the 8-entry rotation at the incremented spokenCount mod 8),
submits the fused label to the dispatcher — which queues its own 4-entry
rotation entry at its incremented counter mod 4, not the built message — and
sets lastSpokenLabel and lastSpokenTime to the fused label and the current
time. -/
theorem spec_c2_speaking_cycle (s : ControllerState) (f : FusionResult)
    (face voice : Option Estimate) (now : ℚ) (s' : ControllerState) (act : SpokeRecord)
    (h : continuousSpeakEmotion s (some f) face voice now = (s', some act)) :
    s'.emotionSpeakCount = s.emotionSpeakCount + 1 ∧
    s'.currentEmotion = some f.emotion ∧
    s'.lastSpokenTime = now ∧
    act.queuedText = some ((ttsMessages f.emotion).getD ((s.ttsEmotionCount + 1) % 4) "") ∧
    (act.message =
      match act.reason with
      | some .faceChanged => "Face shows " ++ emotionName f.emotion
      | some .voiceChanged => "Voice shows " ++ emotionName f.emotion
      | some .highConfidence => "Strong " ++ emotionName f.emotion
      | _ => (mainMessages f.emotion).getD ((s.emotionSpeakCount + 1) % 8) "") := by
  obtain ⟨-, f', hf', h1, h2, h3, -, h5, h6, -⟩ :=
    continuousSpeak_some _ _ _ _ _ _ _ h
  obtain rfl : f' = f := (Option.some_injective _ hf').symm
  exact ⟨h1, h2, h3, h5, h6⟩

/-- Witness for the amended C2, on a concrete time-based cycle. -/
theorem spec_c2_witness :
    (continuousSpeakEmotion ⟨none, 0, none, none, 0, true, 0, 0⟩
        (some ⟨Emotion.happy, 1/2, Source.agreement⟩) none none 3 =
      (⟨some Emotion.happy, 3, none, none, 1, true, 1, 3⟩,
       some ⟨emotionName Emotion.happy ++ " detected",
             some (emotionName Emotion.happy ++ " detected"),
             some Reason.timeBased⟩)) ∧
    (⟨emotionName Emotion.happy ++ " detected",
      some (emotionName Emotion.happy ++ " detected"),
      some Reason.timeBased⟩ : SpokeRecord).queuedText =
      some ((ttsMessages Emotion.happy).getD ((0 + 1) % 4) "") := by
  have heq : continuousSpeakEmotion ⟨none, 0, none, none, 0, true, 0, 0⟩
      (some ⟨Emotion.happy, 1/2, Source.agreement⟩) none none 3 =
      (⟨some Emotion.happy, 3, none, none, 1, true, 1, 3⟩,
       some ⟨emotionName Emotion.happy ++ " detected",
             some (emotionName Emotion.happy ++ " detected"),
             some Reason.timeBased⟩) := by
    norm_num [continuousSpeakEmotion, executeEmotionSpeaking, speakEmotionNow,
      mainMessages, ttsMessages, List.getD_cons_succ, List.getD_cons_zero]
  exact ⟨heq, (spec_c2_speaking_cycle _ _ _ _ _ _ _ heq).2.2.2.1⟩

/-- C8: with lastSpokenTime three seconds back, an unchanged fused label and
fused confidence 0.5, a controller cycle fires speech with recorded reason
time_based — trigger 4 fires and overwrites any earlier trigger's reason,
trigger 5 stays silent below the 0.85 bar. -/
theorem spec_c8_time_based (s : ControllerState) (f : FusionResult)
    (face voice : Option Estimate) (now : ℚ)
    (hen : s.ttsEnabled = true)
    (hsame : s.currentEmotion = some f.emotion)
    (hconf : f.confidence = 1/2)
    (htime : now - s.lastSpokenTime = 3) :
    ∃ s' act, continuousSpeakEmotion s (some f) face voice now = (s', some act) ∧
      act.reason = some Reason.timeBased := by
  norm_num [continuousSpeakEmotion, hen, hsame, hconf, htime]
  exact ⟨_, _, ⟨rfl, rfl⟩, rfl⟩

/-- Witness for C8, at a concrete heartbeat-due state. -/
theorem spec_c8_witness :
    (⟨some Emotion.happy, 0, none, none, 0, true, 0, 0⟩ : ControllerState).ttsEnabled
        = true ∧
    (⟨some Emotion.happy, 0, none, none, 0, true, 0, 0⟩ : ControllerState).currentEmotion
        = some (⟨Emotion.happy, 1/2, Source.agreement⟩ : FusionResult).emotion ∧
    (⟨Emotion.happy, 1/2, Source.agreement⟩ : FusionResult).confidence = 1/2 ∧
    ((3:ℚ) -
      (⟨some Emotion.happy, 0, none, none, 0, true, 0, 0⟩ : ControllerState).lastSpokenTime
        = 3) ∧
    ∃ s' act,
      continuousSpeakEmotion ⟨some Emotion.happy, 0, none, none, 0, true, 0, 0⟩
          (some ⟨Emotion.happy, 1/2, Source.agreement⟩) none none 3 = (s', some act) ∧
        act.reason = some Reason.timeBased :=
  ⟨rfl, rfl, rfl, by norm_num,
    spec_c8_time_based _ _ none none _ rfl rfl rfl (by norm_num)⟩

/-- C9: with input confidences in [0,1], dominant fusion results are capped at
0.7 and single-source results at 0.8, so a fused confidence above 0.85 can only
come from an agreement result; hence the high_confidence trigger reason can be
recorded only on an agreement fusion. -/
theorem spec_c9_high_confidence_agreement (face voice : Option Estimate)
    (hface : ∀ e ∈ face, 0 ≤ e.confidence ∧ e.confidence ≤ 1)
    (hvoice : ∀ e ∈ voice, 0 ≤ e.confidence ∧ e.confidence ≤ 1)
    (r : FusionResult) (h : fuseEmotions face voice = some r) :
    ((r.source = Source.faceDominant ∨ r.source = Source.voiceDominant) →
      r.confidence ≤ 7/10) ∧
    ((r.source = Source.faceOnly ∨ r.source = Source.voiceOnly) →
      r.confidence ≤ 8/10) ∧
    (r.confidence > 17/20 → r.source = Source.agreement) ∧
    (∀ s f2 v2 now s' act,
      continuousSpeakEmotion s (some r) f2 v2 now = (s', some act) →
      act.reason = some Reason.highConfidence → r.source = Source.agreement) := by
  have hfw : faceWeight = 7/10 := rfl
  have hvw : voiceWeight = 3/10 := rfl
  have hbounds :
      ((r.source = Source.faceDominant ∨ r.source = Source.voiceDominant) →
        r.confidence ≤ 7/10) ∧
      ((r.source = Source.faceOnly ∨ r.source = Source.voiceOnly) →
        r.confidence ≤ 8/10) ∧
      (r.confidence > 17/20 → r.source = Source.agreement) := by
    rcases face with _ | fe0 <;> rcases voice with _ | ve0
    · simp [fuseEmotions] at h
    · obtain ⟨hv0, hv1⟩ := hvoice ve0 rfl
      simp only [fuseEmotions, Option.some.injEq] at h
      subst h
      refine ⟨?_, ?_, ?_⟩
      · rintro (hs | hs) <;> simp at hs
      · intro _
        show ve0.confidence * (8/10) ≤ 8/10
        linarith
      · intro hgt
        exfalso
        have hle : ve0.confidence * (8/10) ≤ 8/10 := by linarith
        have hgt2 : ve0.confidence * (8/10) > 17/20 := hgt
        linarith
    · obtain ⟨hf0, hf1⟩ := hface fe0 rfl
      simp only [fuseEmotions, Option.some.injEq] at h
      subst h
      refine ⟨?_, ?_, ?_⟩
      · rintro (hs | hs) <;> simp at hs
      · intro _
        show fe0.confidence * (8/10) ≤ 8/10
        linarith
      · intro hgt
        exfalso
        have hle : fe0.confidence * (8/10) ≤ 8/10 := by linarith
        have hgt2 : fe0.confidence * (8/10) > 17/20 := hgt
        linarith
    · obtain ⟨hf0, hf1⟩ := hface fe0 rfl
      obtain ⟨hv0, hv1⟩ := hvoice ve0 rfl
      by_cases heq : fe0.emotion = ve0.emotion
      · simp only [fuseEmotions, if_pos heq, Option.some.injEq] at h
        subst h
        exact ⟨fun hs => by rcases hs with hs | hs <;> simp at hs,
          fun hs => by rcases hs with hs | hs <;> simp at hs,
          fun _ => rfl⟩
      · simp only [fuseEmotions, if_neg heq] at h
        by_cases hgt : fe0.confidence * faceWeight > ve0.confidence * voiceWeight
        · rw [if_pos hgt] at h
          simp only [Option.some.injEq] at h
          subst h
          refine ⟨?_, ?_, ?_⟩
          · intro _
            show fe0.confidence * faceWeight ≤ 7/10
            rw [hfw]
            linarith
          · rintro (hs | hs) <;> simp at hs
          · intro hc
            exfalso
            have hle : fe0.confidence * faceWeight ≤ 7/10 := by rw [hfw]; linarith
            have hc2 : fe0.confidence * faceWeight > 17/20 := hc
            linarith
        · rw [if_neg hgt] at h
          simp only [Option.some.injEq] at h
          subst h
          refine ⟨?_, ?_, ?_⟩
          · intro _
            show ve0.confidence * voiceWeight ≤ 7/10
            rw [hvw]
            linarith
          · rintro (hs | hs) <;> simp at hs
          · intro hc
            exfalso
            have hle : ve0.confidence * voiceWeight ≤ 3/10 := by rw [hvw]; linarith
            have hc2 : ve0.confidence * voiceWeight > 17/20 := hc
            linarith
  refine ⟨hbounds.1, hbounds.2.1, hbounds.2.2, ?_⟩
  intro s f2 v2 now s' act hcs hr
  obtain ⟨-, f', hf', -, -, -, -, -, -, hhigh⟩ :=
    continuousSpeak_some _ _ _ _ _ _ _ hcs
  obtain rfl : f' = r := (Option.some_injective _ hf').symm
  exact hbounds.2.2 (hhigh hr).1

/-- Witness for C9, at the concrete disagreeing pair face={sad,0.5},
voice={angry,0.9}. -/
theorem spec_c9_witness :
    (∀ e ∈ some (⟨Emotion.sad, 1/2⟩ : Estimate), 0 ≤ e.confidence ∧ e.confidence ≤ 1) ∧
    (∀ e ∈ some (⟨Emotion.angry, 9/10⟩ : Estimate), 0 ≤ e.confidence ∧ e.confidence ≤ 1) ∧
    fuseEmotions (some ⟨Emotion.sad, 1/2⟩) (some ⟨Emotion.angry, 9/10⟩) =
      some ⟨Emotion.sad, 35/100, Source.faceDominant⟩ ∧
    (((⟨Emotion.sad, 35/100, Source.faceDominant⟩ : FusionResult).source =
          Source.faceDominant ∨
        (⟨Emotion.sad, 35/100, Source.faceDominant⟩ : FusionResult).source =
          Source.voiceDominant) →
      (⟨Emotion.sad, 35/100, Source.faceDominant⟩ : FusionResult).confidence ≤ 7/10) := by
  have hface : ∀ e ∈ some (⟨Emotion.sad, 1/2⟩ : Estimate),
      0 ≤ e.confidence ∧ e.confidence ≤ 1 := by
    intro e he
    simp only [Option.mem_def, Option.some.injEq] at he
    subst he
    constructor <;> norm_num
  have hvoice : ∀ e ∈ some (⟨Emotion.angry, 9/10⟩ : Estimate),
      0 ≤ e.confidence ∧ e.confidence ≤ 1 := by
    intro e he
    simp only [Option.mem_def, Option.some.injEq] at he
    subst he
    constructor <;> norm_num
  have h : fuseEmotions (some ⟨Emotion.sad, 1/2⟩) (some ⟨Emotion.angry, 9/10⟩) =
      some ⟨Emotion.sad, 35/100, Source.faceDominant⟩ := by
    have hne2 : Emotion.sad ≠ Emotion.angry := by decide
    norm_num [fuseEmotions, hne2, faceWeight, voiceWeight]
  exact ⟨hface, hvoice, h,
    (spec_c9_high_confidence_agreement _ _ hface hvoice _ h).1⟩

/-- C1: every estimate the voice classifier produces has a label from the
7-emotion set and a confidence that equals the maximum normalized score plus
the bounded volume/RMS boost, capped at 0.92 — hence lies in [0,1]; and every
fusion result of inputs with confidences in [0,1] has confidence in [0,1] and
a label from the 7-emotion set. -/
theorem spec_c1_estimate_invariants (audio : List ℚ)
    (now spectralRolloff pitchVariation rms : ℚ)
    (hist : List Emotion) (jit : Emotion → ℚ) (face voice : Option Estimate)
    (hrms : 0 ≤ rms)
    (hface : ∀ e ∈ face, 0 ≤ e.confidence ∧ e.confidence ≤ 1)
    (hvoice : ∀ e ∈ voice, 0 ≤ e.confidence ∧ e.confidence ≤ 1) :
    (∀ est ∈ (analyzeAudioRealtime audio now spectralRolloff pitchVariation rms
        hist jit).1,
      0 ≤ est.confidence ∧ est.confidence ≤ 92/100 ∧ est.confidence ≤ 1 ∧
      est.emotion ∈ emotionList ∧
      est.confidence = min (92/100)
        (finalScores audio now spectralRolloff pitchVariation hist jit est.emotion +
          min (3/10) (peakAmp audio * 2 + rms * (3/2))) ∧
      ∀ e, finalScores audio now spectralRolloff pitchVariation hist jit e ≤
        finalScores audio now spectralRolloff pitchVariation hist jit est.emotion) ∧
    (∀ r, fuseEmotions face voice = some r →
      0 ≤ r.confidence ∧ r.confidence ≤ 1 ∧ r.emotion ∈ emotionList) := by
  constructor
  · intro est hmem
    by_cases hv : peakAmp audio < 1/200
    · exfalso
      unfold analyzeAudioRealtime at hmem
      rw [if_pos hv] at hmem
      simp at hmem
    · unfold analyzeAudioRealtime at hmem
      rw [if_neg hv] at hmem
      simp only [Option.mem_def, Option.some.injEq] at hmem
      have hfloor : ∀ e, 1/20 ≤ flooredScores
          (repetitionAdjust
            (phaseBand now
              (calcRealtimeEmotions (peakAmp audio) (meanSq audio) (zcrOf audio)
                spectralRolloff pitchVariation))
            hist) jit e :=
        fun e => flooredScores_ge _ _ e
      have hnn : ∀ e, 0 ≤ finalScores audio now spectralRolloff pitchVariation hist jit e :=
        fun e => normalize_nonneg _ hfloor e
      have hboost : 0 ≤ min (3/10) (peakAmp audio * 2 + rms * (3/2)) :=
        le_min (by norm_num)
          (add_nonneg (mul_nonneg (peakAmp_nonneg audio) (by norm_num))
            (mul_nonneg hrms (by norm_num)))
      subst hmem
      refine ⟨?_, min_le_left _ _, le_trans (min_le_left _ _) (by norm_num),
        mem_emotionList _, rfl, ?_⟩
      · exact le_min (by norm_num)
          (add_nonneg (hnn _) hboost)
      · intro e
        exact bestEmotion_max _ e
  · intro r h
    rcases face with _ | fe0 <;> rcases voice with _ | ve0
    · simp [fuseEmotions] at h
    · obtain ⟨hv0, hv1⟩ := hvoice ve0 rfl
      simp only [fuseEmotions, Option.some.injEq] at h
      subst h
      refine ⟨?_, ?_, mem_emotionList _⟩
      · show 0 ≤ ve0.confidence * (8/10)
        linarith
      · show ve0.confidence * (8/10) ≤ 1
        linarith
    · obtain ⟨hf0, hf1⟩ := hface fe0 rfl
      simp only [fuseEmotions, Option.some.injEq] at h
      subst h
      refine ⟨?_, ?_, mem_emotionList _⟩
      · show 0 ≤ fe0.confidence * (8/10)
        linarith
      · show fe0.confidence * (8/10) ≤ 1
        linarith
    · obtain ⟨hf0, hf1⟩ := hface fe0 rfl
      obtain ⟨hv0, hv1⟩ := hvoice ve0 rfl
      have hfw : faceWeight = 7/10 := rfl
      have hvw : voiceWeight = 3/10 := rfl
      by_cases heq : fe0.emotion = ve0.emotion
      · simp only [fuseEmotions, if_pos heq, Option.some.injEq] at h
        subst h
        refine ⟨?_, ?_, mem_emotionList _⟩
        · show 0 ≤ min 1 (fe0.confidence * faceWeight + ve0.confidence * voiceWeight + 2/10)
          rw [hfw, hvw]
          exact le_min (by norm_num) (by nlinarith)
        · exact min_le_left _ _
      · simp only [fuseEmotions, if_neg heq] at h
        by_cases hgt : fe0.confidence * faceWeight > ve0.confidence * voiceWeight
        · rw [if_pos hgt] at h
          simp only [Option.some.injEq] at h
          subst h
          refine ⟨?_, ?_, mem_emotionList _⟩
          · show 0 ≤ fe0.confidence * faceWeight
            rw [hfw]
            linarith
          · show fe0.confidence * faceWeight ≤ 1
            rw [hfw]
            linarith
        · rw [if_neg hgt] at h
          simp only [Option.some.injEq] at h
          subst h
          refine ⟨?_, ?_, mem_emotionList _⟩
          · show 0 ≤ ve0.confidence * voiceWeight
            rw [hvw]
            linarith
          · show ve0.confidence * voiceWeight ≤ 1
            rw [hvw]
            linarith

/-- Witness for C1, applying the invariants at a face-only fusion input. -/
theorem spec_c1_witness :
    (0:ℚ) ≤ 0 ∧
    (∀ e ∈ some (⟨Emotion.happy, 1/2⟩ : Estimate), 0 ≤ e.confidence ∧ e.confidence ≤ 1) ∧
    (∀ e ∈ (none : Option Estimate), 0 ≤ e.confidence ∧ e.confidence ≤ 1) ∧
    fuseEmotions (some ⟨Emotion.happy, 1/2⟩) none =
      some ⟨Emotion.happy, 1/2 * (8/10), Source.faceOnly⟩ ∧
    (0 ≤ (⟨Emotion.happy, 1/2 * (8/10), Source.faceOnly⟩ : FusionResult).confidence ∧
      (⟨Emotion.happy, 1/2 * (8/10), Source.faceOnly⟩ : FusionResult).confidence ≤ 1 ∧
      (⟨Emotion.happy, 1/2 * (8/10), Source.faceOnly⟩ : FusionResult).emotion ∈
        emotionList) := by
  have hface : ∀ e ∈ some (⟨Emotion.happy, 1/2⟩ : Estimate),
      0 ≤ e.confidence ∧ e.confidence ≤ 1 := by
    intro e he
    simp only [Option.mem_def, Option.some.injEq] at he
    subst he
    constructor <;> norm_num
  have hvoice : ∀ e ∈ (none : Option Estimate),
      0 ≤ e.confidence ∧ e.confidence ≤ 1 := by
    intro e he
    simp at he
  have hfuse : fuseEmotions (some ⟨Emotion.happy, 1/2⟩) none =
      some ⟨Emotion.happy, 1/2 * (8/10), Source.faceOnly⟩ := rfl
  exact ⟨le_refl 0, hface, hvoice, hfuse,
    (spec_c1_estimate_invariants [1] 0 (1/2) (1/2) 0 [] (fun _ => 0) _ _
      (le_refl 0) hface hvoice).2 _ hfuse⟩

/-- Witness for C10, at a concrete disabled state. -/
theorem spec_c10_witness :
    (⟨none, 0, none, none, 0, false, 0, 0⟩ : ControllerState).ttsEnabled = false ∧
    continuousSpeakEmotion ⟨none, 0, none, none, 0, false, 0, 0⟩ none none none 0 =
      (⟨none, 0, none, none, 0, false, 0, 0⟩, none) :=
  ⟨rfl, (spec_c10_tts_disabled _ none none none 0 rfl).1⟩

